import Mathlib

/-!
Verification development for the trivia-challenge backend.

Shallow embedding of the cache-backed session / leaderboard / question-rotation
subsystem (src/index.js, src/question-preloader.js, src/valkey-client.js,
src/rate-limiter.js and their duplicated variants in src/unnamed/).  JavaScript
numbers are modelled by `Rat` (all quantities involved are exact), timestamps by
`Int` milliseconds, strings by `String`, and `Math.random`-driven choices by an
explicit choice function passed as a parameter.
-/

/-! ## Fisher-Yates shuffle

Both `QuestionService.shuffleArray` (src/question-preloader.js, lines 1290-1298)
and `shuffleOptions` (src/index.js, lines 992-999) run the identical loop

  for (let i = shuffled.length - 1; i > 0; i--) {
    const j = Math.floor(Math.random() * (i + 1));
    [shuffled[i], shuffled[j]] = [shuffled[j], shuffled[i]];
  }

on a copy of the input array.  The random draw `j` lies in `[0, i]`; it is
modelled by a choice function `rand : (i : Nat) → Fin (i + 1)`. -/

/-- Swap of the elements at positions `i` and `j`, the meaning of the
destructuring assignment on an array; out-of-range indices (which the source
loop never produces) leave the list unchanged. -/
def listSwap (l : List α) (i j : Nat) : List α :=
  match l.get? i, l.get? j with
  | some a, some b => (l.set i b).set j a
  | _, _ => l

/-- One pass of the shuffle loop: process indices `i, i-1, ..., 1`. -/
def fisherYatesAux (rand : (i : Nat) → Fin (i + 1)) : Nat → List α → List α
  | 0, l => l
  | Nat.succ k, l => fisherYatesAux rand k (listSwap l (k + 1) (rand (k + 1)).val)

/-- The full Fisher-Yates shuffle of the copied array (`const shuffled = [...array]`). -/
def fisherYates (rand : (i : Nat) → Fin (i + 1)) (l : List α) : List α :=
  fisherYatesAux rand (l.length - 1) l

/-! ## Question records and the rotation service

Question records as produced by the preloader (`fetchQuestionsFromAPI`,
src/question-preloader.js): each question gets a fresh `uuidv4()` id. -/

structure Question where
  id : String
  question : String
  correct_answer : String
  incorrect_answers : List String
  category : String
  difficulty : String
deriving DecidableEq, Repr

namespace QuestionService

/-- Embedding of `QuestionService.shuffleArray` (src/question-preloader.js,
lines 1290-1298). -/
def shuffleArray (rand : (i : Nat) → Fin (i + 1)) (array : List Question) : List Question :=
  fisherYates rand array

/-- Selection core of `QuestionService.getGameQuestions` (src/question-preloader.js,
lines 479-515): filter out seen ids (`new Set(seenQuestions)` membership); if
fewer than 5 unseen questions remain, shuffle the full pool, else shuffle the
unseen ones; take the first 5 (`.slice(0, 5)`). -/
def getGameQuestions (rand : (i : Nat) → Fin (i + 1)) (allQuestions : List Question)
    (seenQuestions : List String) : List Question :=
  let unseenQuestions := allQuestions.filter (fun q => !(seenQuestions.contains q.id))
  if unseenQuestions.length < 5 then (shuffleArray rand allQuestions).take 5
  else (shuffleArray rand unseenQuestions).take 5

end QuestionService

/-! ### Concrete witness data for the rotation service -/

/-- A concrete 5-question pool with pairwise-distinct ids. -/
def poolW : List Question :=
  [{ id := "q1", question := "a", correct_answer := "x", incorrect_answers := ["y"],
     category := "general", difficulty := "easy" },
   { id := "q2", question := "b", correct_answer := "x", incorrect_answers := ["y"],
     category := "general", difficulty := "easy" },
   { id := "q3", question := "c", correct_answer := "x", incorrect_answers := ["y"],
     category := "general", difficulty := "easy" },
   { id := "q4", question := "d", correct_answer := "x", incorrect_answers := ["y"],
     category := "general", difficulty := "easy" },
   { id := "q5", question := "e", correct_answer := "x", incorrect_answers := ["y"],
     category := "general", difficulty := "easy" }]

/-- A concrete shuffle-choice function (always draw index 0). -/
def randW : (i : Nat) → Fin (i + 1) := fun i => ⟨0, Nat.succ_pos i⟩

/-! ## Answer-option shuffling at game start (src/index.js)

`startGame` (src/index.js, lines 656-668) stores, for every drawn question,

  options: shuffleOptions([q.correct_answer, ...q.incorrect_answers])

where `shuffleOptions` (lines 992-999) copies the array and runs the identical
Fisher-Yates loop as the rotation service. -/

/-- Embedding of `shuffleOptions` (src/index.js, lines 992-999); the function
operates on a copy (`const shuffled = [...options]`), so in this embedding it is
a pure function and its argument list is left untouched. -/
def shuffleOptions (rand : (i : Nat) → Fin (i + 1)) (options : List String) : List String :=
  fisherYates rand options

/-- Shape of the per-question session records built by `startGame`. -/
structure SessionQuestion where
  id : String
  question : String
  options : List String
  correct_answer : String
deriving DecidableEq, Repr

/-- The record `startGame` builds for one drawn question (src/index.js, lines 659-664). -/
def buildSessionQuestion (rand : (i : Nat) → Fin (i + 1)) (q : Question) : SessionQuestion :=
  { id := q.id
    question := q.question
    options := shuffleOptions rand (q.correct_answer :: q.incorrect_answers)
    correct_answer := q.correct_answer }

/-- The `questions.map(...)` of `startGame`, with an independent random draw for
each question (index `n` names the per-question randomness). -/
def startGameQuestions (rand : Nat → (i : Nat) → Fin (i + 1)) :
    Nat → List Question → List SessionQuestion
  | _, [] => []
  | n, q :: qs => buildSessionQuestion (rand n) q :: startGameQuestions rand (n + 1) qs

/-- A concrete question for the C10 witness. -/
def questionW : Question :=
  { id := "q1", question := "a", correct_answer := "x", incorrect_answers := ["y", "z"],
    category := "general", difficulty := "easy" }

/-! ## Per-question scoring (src/index.js, second handler variant)

`submitAnswer` (src/index.js, lines 771-781) computes

  const isCorrect = answer === currentQuestion.correct_answer;
  let questionScore = 0;
  if (isCorrect) {
    const validTimeTaken = normalizeTimeTaken(timeTaken);
    const speedBonus = validTimeTaken <= 10 ? Math.max(0, Math.floor(10 - validTimeTaken)) : 0;
    questionScore = 10 + speedBonus;
  }

with `normalizeTimeTaken` (lines 988-990) mapping any non-number, non-positive or
greater-than-15 input to 15.  A missing/non-number `timeTaken` is modelled as `none`. -/

namespace IndexHandler

/-- Embedding of `normalizeTimeTaken` (src/index.js, lines 988-990). -/
def normalizeTimeTaken (timeTaken : Option ℚ) : ℚ :=
  match timeTaken with
  | some t => if 0 < t ∧ t ≤ 15 then t else 15
  | none => 15

/-- The speed bonus computed inside `submitAnswer` (src/index.js, line 779). -/
def speedBonus (validTimeTaken : ℚ) : ℚ :=
  if validTimeTaken ≤ 10 then ((max 0 ⌊(10 : ℚ) - validTimeTaken⌋ : ℤ) : ℚ) else 0

/-- The per-question score of `submitAnswer` (src/index.js, lines 774-781). -/
def questionScore (isCorrect : Bool) (timeTaken : Option ℚ) : ℚ :=
  if isCorrect then 10 + speedBonus (normalizeTimeTaken timeTaken) else 0

end IndexHandler

/-! ## Session state and the submit-answer step

Sessions as created by `startGame` (src/index.js, lines 656-670; the source
field is named `currentQuestion` and plays the role the spec calls
`currentQuestionIndex`). -/

structure Session where
  userId : String
  sessionId : String
  questions : List SessionQuestion
  currentQuestion : Nat
  score : ℚ
  startTime : Int
deriving DecidableEq, Repr

namespace IndexHandler

/-- Outcomes of the submit-answer step of the second handler variant
(src/index.js, lines 745-784), after input validation and session fetch. -/
inductive SubmitOutcome where
  | invalidSession : SubmitOutcome
  | invalidQuestionIndex : SubmitOutcome
  | questionIdMismatch : SubmitOutcome
  | answered (correct : Bool) (score : ℚ) : SubmitOutcome
deriving DecidableEq, Repr

/-- True exactly on the accepted (`answered`) outcome. -/
def SubmitOutcome.isAnswered : SubmitOutcome → Bool
  | .answered _ _ => true
  | _ => false

/-- Embedding of `submitAnswer` (src/index.js, lines 745-784), from the point
where the session has been loaded: ownership check, index bound check
(`session.currentQuestion >= session.questions.length` is rejected), optional
question-id match check (`if (questionId && questionId !== currentQuestion.id)`),
correctness by string equality, scoring, and the `session.currentQuestion++`
increment.  The `none` arm of the index lookup is unreachable under the bound
check, mirroring the JavaScript where the element access cannot be undefined. -/
def submitAnswer (userId : String) (questionId : Option String) (answer : String)
    (timeTaken : Option ℚ) (session : Session) : SubmitOutcome × Session :=
  if session.userId ≠ userId then (.invalidSession, session)
  else if session.questions.length ≤ session.currentQuestion then
    (.invalidQuestionIndex, session)
  else
    match session.questions.get? session.currentQuestion with
    | none => (.invalidQuestionIndex, session)
    | some currentQuestion =>
      if (match questionId with
          | some qid => qid != currentQuestion.id
          | none => false) then (.questionIdMismatch, session)
      else
        let isCorrect := answer == currentQuestion.correct_answer
        let score := questionScore isCorrect timeTaken
        (.answered isCorrect score,
         { session with
             score := if isCorrect then session.score + score else session.score,
             currentQuestion := session.currentQuestion + 1 })

end IndexHandler

namespace IndexHandlerV1

/-- Outcomes of the submit-answer step of the first handler variant
(src/index.js, lines 258-340).  That variant has no index bound check: when
`currentQuestion` already equals `questions.length`, the element access yields
`undefined` and reading `.correct_answer` throws a TypeError, which the
top-level handler catch turns into a 500 response without persisting the
session; this is the `typeErrorCrash` outcome. -/
inductive SubmitOutcomeV1 where
  | invalidSession : SubmitOutcomeV1
  | typeErrorCrash : SubmitOutcomeV1
  | answered (correct : Bool) (score : ℚ) : SubmitOutcomeV1
deriving DecidableEq, Repr

/-- True exactly on the accepted (`answered`) outcome. -/
def SubmitOutcomeV1.isAnswered : SubmitOutcomeV1 → Bool
  | .answered _ _ => true
  | _ => false

/-- Embedding of the first variant's `submitAnswer` (src/index.js, lines
258-340) after its inline input validation: ownership check, then direct
element access (no bound check), scoring `10 + Math.max(0, 5 - timeTaken)`,
and the `session.currentQuestion++` increment. -/
def submitAnswer (userId : String) (answer : String) (timeTaken : ℚ)
    (session : Session) : SubmitOutcomeV1 × Session :=
  if session.userId ≠ userId then (.invalidSession, session)
  else
    match session.questions.get? session.currentQuestion with
    | none => (.typeErrorCrash, session)
    | some currentQ =>
      let isCorrect := answer == currentQ.correct_answer
      let score : ℚ := if isCorrect then 10 + max 0 (5 - timeTaken) else 0
      (.answered isCorrect score,
       { session with
           score := if isCorrect then session.score + score else session.score,
           currentQuestion := session.currentQuestion + 1 })

end IndexHandlerV1

/-- A concrete session question for the C4 witness. -/
def sessionQuestionW : SessionQuestion :=
  { id := "q1", question := "a", options := ["x", "y"], correct_answer := "x" }

/-- A concrete fresh session (index 0) for the C4 witness. -/
def sessionW : Session :=
  { userId := "u", sessionId := "s1", questions := [sessionQuestionW],
    currentQuestion := 0, score := 0, startTime := 0 }

/-- A concrete exhausted session (index = questions.length) for the C4 witness. -/
def sessionDoneW : Session :=
  { userId := "u", sessionId := "s1", questions := [sessionQuestionW],
    currentQuestion := 1, score := 0, startTime := 0 }

/-! ## Rate limiters

Two sliding-window limiter implementations exist.  `src/rate-limiter.js`
(lines 8-38) prunes with `userRequests.filter(timestamp => timestamp > windowStart)`;
`src/unnamed/part_013` (lines 11-47) prunes by scanning for the first index with
`userRequests[i] > cutoff` (`validStart`, initialised to 0) and slicing from it —
when no entry is inside the window, `validStart` stays 0 and nothing is pruned.
Timestamps (`Date.now()`) are `Int` milliseconds. -/

namespace RateLimiter

/-- One call of `checkRateLimit` (src/rate-limiter.js, lines 8-38), parameterised
by the limit and window the claim quantifies over (the file hardcodes
`maxRequests = 100`, `windowMs = 60000`).  Returns the decision and the stored
timestamp list for the identifier (on rejection the map keeps the old list; the
probabilistic `cleanup()` call only affects other identifiers' buckets).  -/
def checkRateLimit (maxRequests : Nat) (windowMs : Int) (now : Int)
    (userRequests : List Int) : Bool × List Int :=
  let windowStart := now - windowMs
  let validRequests := userRequests.filter (fun timestamp => windowStart < timestamp)
  if maxRequests ≤ validRequests.length then (false, userRequests)
  else (true, validRequests ++ [now])

/-- Run a sequence of calls for one identifier, collecting the decisions. -/
def runCalls (maxRequests : Nat) (windowMs : Int) (calls : List Int) : List Bool :=
  (calls.foldl
    (fun (acc : List Bool × List Int) now =>
      let r := checkRateLimit maxRequests windowMs now acc.2
      (acc.1 ++ [r.1], r.2))
    ([], [])).1

end RateLimiter

namespace RateLimiterPart013

/-- State for one identifier of the part_013 limiter together with the shared
`lastCleanup` stamp (`cleanupThreshold` is hardcoded to 60000 ms). -/
structure P13State where
  reqs : List Int
  lastCleanup : Int
deriving DecidableEq, Repr

/-- One call of `checkRateLimit` (src/unnamed/part_013, lines 11-47) for a
single identifier: inline cleanup when more than 60000 ms have passed since the
last one, then the `validStart` scan-and-slice prune, then the limit check. -/
def checkRateLimit (rateLimit : Nat) (rateLimitWindow : Int) (now : Int)
    (st : P13State) : Bool × P13State :=
  let st :=
    if 60000 < now - st.lastCleanup then
      { reqs := st.reqs.filter (fun time => now - rateLimitWindow < time), lastCleanup := now }
    else st
  let cutoff := now - rateLimitWindow
  let validStart :=
    match st.reqs.findIdx? (fun t => cutoff < t) with
    | some i => i
    | none => 0
  let recentRequests := st.reqs.drop validStart
  if rateLimit ≤ recentRequests.length then (false, st)
  else (true, { st with reqs := recentRequests ++ [now] })

/-- Run a sequence of calls for one identifier, collecting the decisions
(process construction at time 0, so `lastCleanup` starts at 0). -/
def runCalls (rateLimit : Nat) (rateLimitWindow : Int) (calls : List Int) : List Bool :=
  (calls.foldl
    (fun (acc : List Bool × P13State) now =>
      let r := checkRateLimit rateLimit rateLimitWindow now acc.2
      (acc.1 ++ [r.1], r.2))
    ([], ⟨[], 0⟩)).1

end RateLimiterPart013

/-! ## Key-value store adapter (src/valkey-client.js and src/unnamed/part_014)

The adapter's string sanitizers are `String.replace` with character-class
regexes plus `substring` truncation; they are embedded as char-list filters
plus `take`.  The store calls themselves are wrapped in `try/catch` blocks
that log and do not rethrow; the embedding records what was issued to the
store and whether an error reached the caller. -/

namespace ValkeyClient

/-- Characters kept by `sanitizeSessionId` (regex `[^a-zA-Z0-9-]` removed). -/
def isSessionIdChar (c : Char) : Bool := c.isAlphanum || c == '-'

/-- Embedding of `sanitizeSessionId` (src/valkey-client.js, line 542):
`String(sessionId).replace(/[^a-zA-Z0-9-]/g, '').substring(0, 50)`. -/
def sanitizeSessionId (sessionId : String) : String :=
  String.mk ((sessionId.toList.filter isSessionIdChar).take 50)

/-- Characters kept by `sanitizeUserId` (regex `[^a-zA-Z0-9@._-]` removed). -/
def isUserIdChar (c : Char) : Bool :=
  c.isAlphanum || c == '@' || c == '.' || c == '_' || c == '-'

/-- Embedding of `sanitizeUserId` (src/valkey-client.js, line 538):
`String(userId).replace(/[^a-zA-Z0-9@._-]/g, '').substring(0, 100)`. -/
def sanitizeUserId (userId : String) : String :=
  String.mk ((userId.toList.filter isUserIdChar).take 100)

/-- Characters kept by `sanitizeUsername` after lowercasing. -/
def isUsernameChar (c : Char) : Bool := c.isLower || c.isDigit || c == '_' || c == '-'

/-- Embedding of `sanitizeUsername` (src/valkey-client.js, line 546):
lowercase, strip `[^a-z0-9_-]`, truncate to 20. -/
def sanitizeUsername (username : String) : String :=
  String.mk (((username.toList.map Char.toLower).filter isUsernameChar).take 20)

/-- Health of the backing store during one call: either the `setex`/`zadd`
pipeline succeeds or it fails (connection error or the 2000 ms timeout). -/
inductive StoreHealth where
  | ok : StoreHealth
  | failure : StoreHealth
deriving DecidableEq, Repr

/-- Result of a `setSession` call: the key it addressed, what got written, and
the error surfaced to the caller (always `none`: every failure is caught and
only logged). -/
structure SetSessionResult where
  attemptedKey : String
  written : Option (String × String)
  propagatedError : Option String
deriving DecidableEq, Repr

/-- Embedding of `setSession` (src/valkey-client.js, lines 139-148; the
src/unnamed/part_014 lines 160-169 version is identical in these respects):
sanitize the id, build the key, `setex` the serialized payload, and swallow
every failure in the `catch` block. There is no pattern validation and no
payload-size check. -/
def setSession (sessionId : String) (serializedData : String) (store : StoreHealth) :
    SetSessionResult :=
  let key := "valkey:session:" ++ sanitizeSessionId sessionId
  match store with
  | .ok => { attemptedKey := key, written := some (key, serializedData), propagatedError := none }
  | .failure => { attemptedKey := key, written := none, propagatedError := none }

end ValkeyClient

/-- The session-id pattern the claim asserts (`^[A-Za-z0-9_-]{1,100}$`),
stated from the spec's words for comparison with the code's behaviour. -/
def claimedSessionIdPattern (s : String) : Bool :=
  decide (1 ≤ s.length) && decide (s.length ≤ 100) &&
    s.toList.all (fun c => c.isAlphanum || c == '_' || c == '-')

/-! ## Leaderboard writes (claim C7) -/

namespace ValkeyClientPart014

/-- JavaScript `Number(score) || 0` on the already-numeric-or-not input: a
non-number becomes `NaN` and `|| 0` turns it (like an exact 0) into 0. -/
def jsNumberOr0 (score : Option ℚ) : ℚ :=
  match score with
  | some s => if s = 0 then 0 else s
  | none => 0

/-- Embedding of the score clamp in `addToLeaderboard`
(src/unnamed/part_014, line 196): `Math.max(0, Math.min(10000, Number(score) || 0))`. -/
def sanitizedScore (score : Option ℚ) : ℚ := max 0 (min 10000 (jsNumberOr0 score))

/-- Embedding of `addToLeaderboard` (src/unnamed/part_014, lines 190-211):
the `zadd` score/member pair it issues. -/
def addToLeaderboard (score : Option ℚ) (userId username : String) : ℚ × String :=
  (sanitizedScore score,
   ValkeyClient.sanitizeUserId userId ++ ":" ++ ValkeyClient.sanitizeUsername username)

end ValkeyClientPart014

namespace ValkeyClient

/-- Embedding of `addToLeaderboard` (src/valkey-client.js, lines 169-182):
the `zadd` score/member pair it issues — no clamp and no sanitization. -/
def addToLeaderboard (score : ℚ) (userId username : String) : ℚ × String :=
  (score, userId ++ ":" ++ username)

end ValkeyClient

/-- The clamp the claim asserts (`[0, 1000]`), stated from the spec's words. -/
def claimedScoreClamp (s : ℚ) : ℚ := max 0 (min 1000 s)

/-! ## Leaderboard member parsing (claim C8)

Leaderboard members are stored as `userId + ":" + username`.  On read,
src/valkey-client.js (`getLeaderboard`, lines 184-203) destructures
`results[i].split(':')` into its first two parts, while src/unnamed/part_014
(lines 213-234) takes `parts[0]` and rejoins `parts.slice(1)` with `':'`. -/

/-- JavaScript `String.prototype.split` with a single-character separator,
on the character list of the string: `"".split(sep)` is `[""]`, and every
separator occurrence opens a new (possibly empty) field. -/
def jsSplit (sep : Char) : List Char → List (List Char)
  | [] => [[]]
  | c :: rest =>
    let r := jsSplit sep rest
    if c = sep then [] :: r
    else
      match r with
      | [] => [[c]]
      | h :: t => (c :: h) :: t

/-- The member string split on `':'`, as a list of strings. -/
def splitOnColon (s : String) : List String := (jsSplit ':' s.toList).map String.mk

/-- JavaScript `Array.prototype.join(':')`. -/
def joinColon : List String → String
  | [] => ""
  | [x] => x
  | x :: xs => x ++ ":" ++ joinColon xs

namespace ValkeyClient

/-- Member parsing in `getLeaderboard` (src/valkey-client.js, lines 195-196):
`const [userId, username] = results[i].split(':')` keeps only the first two
parts — any text after a second colon is dropped. -/
def getLeaderboardMember (member : String) : Option String × Option String :=
  let parts := splitOnColon member
  (parts.get? 0, parts.get? 1)

end ValkeyClient

namespace ValkeyClientPart014

/-- Member parsing in `getLeaderboard` (src/unnamed/part_014, lines 221-224):
`parts[0]` and `parts.slice(1).join(':')`, keeping colons inside the username. -/
def getLeaderboardMember (member : String) : String × String :=
  let parts := splitOnColon member
  (parts.headD "", joinColon parts.tail)

end ValkeyClientPart014

/-! ## Seen-question batch writes (claim C9) -/

namespace ValkeyClient

/-- Characters kept by the per-id sanitization (regex `[^a-zA-Z0-9_-]` removed). -/
def isQuestionIdChar (c : Char) : Bool := c.isAlphanum || c == '_' || c == '-'

/-- Embedding of `String(id).replace(/[^a-zA-Z0-9_-]/g, '')` from
`addSeenQuestions` — note: no length truncation. -/
def sanitizeQuestionId (id : String) : String :=
  String.mk (id.toList.filter isQuestionIdChar)

/-- Result of an `addSeenQuestions` call: the set key, the members passed to
the single pipelined `sadd`, the TTL refresh, and the error surfaced to the
caller (always `none`: the `catch` block only logs). -/
structure AddSeenResult where
  key : String
  members : List String
  ttlSeconds : Nat
  raisedToCaller : Option String
deriving DecidableEq, Repr

/-- Embedding of `addSeenQuestions` (src/valkey-client.js, lines 95-110; the
src/unnamed/part_014 lines 116-131 version is identical): map-sanitize every
id (empty results included), issue one pipelined `sadd` + `expire(604800)`,
and swallow every error. -/
def addSeenQuestions (userId : String) (questionIds : List String) : AddSeenResult :=
  { key := "valkey:user:" ++ sanitizeUserId userId ++ ":seen_questions"
    members := questionIds.map sanitizeQuestionId
    ttlSeconds := 604800
    raisedToCaller := none }

end ValkeyClient

/-! ## Week-key computation (claim C3)

JavaScript `Date` values at UTC midnight are modelled by their day count since
the Unix epoch (1970-01-01), computed from the proleptic-Gregorian civil date
with the standard era-based algorithm; `getUTCDay`/`getDay` (the runtime is
UTC) is the day count modulo 7 shifted so that the epoch is a Thursday (4).
`QuestionPreloader.getWeekNumber` (src/question-preloader.js, lines 200-206,
duplicated in the QuestionService variant at lines 471-477) implements
ISO-8601, Thursday-anchored week numbering; `ValkeyClient.getWeekNumber`
(src/valkey-client.js, lines 550-554) computes
`Math.ceil((pastDaysOfYear + firstDayOfYear.getDay() + 1) / 7)` instead.
For a positive integer `n`, `Math.ceil(n / 7) = (n + 6) / 7` in `Nat`. -/

/-- Day count of a civil date in the era-based Gregorian calendar (days since
0000-03-01, valid for the years used here). -/
def daysFromCivil (y m d : Nat) : Nat :=
  let yAdj := if m ≤ 2 then y - 1 else y
  let era := yAdj / 400
  let yoe := yAdj % 400
  let mp := (m + 9) % 12
  let doy := (153 * mp + 2) / 5 + (d - 1)
  let doe := yoe * 365 + yoe / 4 - yoe / 100 + doy
  era * 146097 + doe

/-- The JavaScript time value at UTC midnight of a civil date, in days since
the Unix epoch. -/
def dayNumber (y m d : Nat) : Int := (daysFromCivil y m d : Int) - 719468

/-- JavaScript `getUTCDay()` (0 = Sunday) of an epoch day count. -/
def getUTCDay (z : Int) : Nat := ((z + 4) % 7).toNat

/-- The civil year containing an epoch day count (JavaScript
`getUTCFullYear()`), by the standard inverse algorithm. -/
def yearFromDays (z : Int) : Nat :=
  let zN := (z + 719468).toNat
  let era := zN / 146097
  let doe := zN % 146097
  let yoe := (doe - doe / 1460 + doe / 36524 - doe / 146096) / 365
  let y := yoe + era * 400
  let doy := doe - (365 * yoe + yoe / 4 - yoe / 100)
  let mp := (5 * doy + 2) / 153
  let m := if mp < 10 then mp + 3 else mp - 9
  if m ≤ 2 then y + 1 else y

namespace QuestionPreloader

/-- Embedding of `QuestionPreloader.getWeekNumber` (src/question-preloader.js,
lines 200-206): shift the date to the Thursday of its ISO week
(`d.setUTCDate(d.getUTCDate() + 4 - dayNum)` with `dayNum = getUTCDay() || 7`),
then count weeks from January 1 of that Thursday's year. -/
def getWeekNumber (y m d : Nat) : Nat :=
  let days := dayNumber y m d
  let w := getUTCDay days
  let dayNum := if w = 0 then 7 else w
  let dShifted := days + 4 - (dayNum : Int)
  let yearStart := dayNumber (yearFromDays dShifted) 1 1
  ((dShifted - yearStart).toNat + 1 + 6) / 7

end QuestionPreloader

namespace ValkeyClient

/-- Embedding of `ValkeyClient.getWeekNumber` (src/valkey-client.js, lines
550-554) at UTC midnight of the given date:
`Math.ceil((pastDaysOfYear + firstDayOfYear.getDay() + 1) / 7)`. -/
def getWeekNumber (y m d : Nat) : Nat :=
  let pastDaysOfYear := (dayNumber y m d - dayNumber y 1 1).toNat
  (pastDaysOfYear + getUTCDay (dayNumber y 1 1) + 1 + 6) / 7

end ValkeyClient

/-! ## Theorems -/

/-- Helper: replacing the element at a valid position `m` by `a` while consing the
old element in front is a permutation of consing `a` in front. -/
theorem cons_get_set_perm (t : List α) : ∀ (m : Nat) (a b : α),
    t.get? m = some b → (b :: t.set m a).Perm (a :: t) := by
  induction t with
  | nil => intro m a b h; simp at h
  | cons c t ih =>
    intro m a b h
    cases m with
    | zero =>
      simp only [List.get?_cons_zero, Option.some.injEq] at h
      subst h
      simp only [List.set_cons_zero]
      exact List.Perm.swap a c t
    | succ k =>
      simp only [List.get?_cons_succ] at h
      simp only [List.set_cons_succ]
      exact (List.Perm.swap c b _).trans (((ih k a b h).cons c).trans (List.Perm.swap a c t))

/-- Writing `l[j]` into position `i` and `l[i]` into position `j` permutes `l`. -/
theorem set_get_set_perm (l : List α) : ∀ (i j : Nat) (a b : α),
    l.get? i = some a → l.get? j = some b → ((l.set i b).set j a).Perm l := by
  induction l with
  | nil => intro i j a b h1 _; simp at h1
  | cons x t ih =>
    intro i j a b h1 h2
    cases i with
    | zero =>
      simp only [List.get?_cons_zero, Option.some.injEq] at h1
      subst h1
      cases j with
      | zero =>
        simp only [List.get?_cons_zero, Option.some.injEq] at h2
        subst h2
        simp only [List.set_cons_zero]
        exact List.Perm.refl _
      | succ m =>
        simp only [List.get?_cons_succ] at h2
        simp only [List.set_cons_zero, List.set_cons_succ]
        exact cons_get_set_perm t m x b h2
    | succ n =>
      simp only [List.get?_cons_succ] at h1
      cases j with
      | zero =>
        simp only [List.get?_cons_zero, Option.some.injEq] at h2
        subst h2
        simp only [List.set_cons_succ, List.set_cons_zero]
        exact cons_get_set_perm t n x a h1
      | succ m =>
        simp only [List.get?_cons_succ] at h1 h2
        simp only [List.set_cons_succ]
        exact (ih n m a b h1 h2).cons x

/-- A single swap step permutes the list. -/
theorem listSwap_perm (l : List α) (i j : Nat) : (listSwap l i j).Perm l := by
  unfold listSwap
  rcases h1 : l.get? i with _ | a
  · exact List.Perm.refl l
  · rcases h2 : l.get? j with _ | b
    · exact List.Perm.refl l
    · exact set_get_set_perm l i j a b h1 h2

/-- The shuffle loop permutes the list. -/
theorem fisherYatesAux_perm (rand : (i : Nat) → Fin (i + 1)) :
    ∀ (k : Nat) (l : List α), (fisherYatesAux rand k l).Perm l
  | 0, l => List.Perm.refl l
  | Nat.succ k, l =>
    (fisherYatesAux_perm rand k (listSwap l (k + 1) (rand (k + 1)).val)).trans
      (listSwap_perm l (k + 1) (rand (k + 1)).val)

/-- The Fisher-Yates shuffle returns a permutation of its input. -/
theorem fisherYates_perm (rand : (i : Nat) → Fin (i + 1)) (l : List α) :
    (fisherYates rand l).Perm l :=
  fisherYatesAux_perm rand (l.length - 1) l

/-- C2: For every user and pool, the question rotation service returns a batch of
5 questions with pairwise-distinct question IDs; when at least 5 unseen questions
exist in the pool, no returned ID is in the user's seen set; when fewer than 5
unseen questions remain, the seen-filter is ignored and the 5 questions are drawn
from the full pool.  (The pool hypotheses hold for the pools the service reads:
the preloader assigns each stored question a fresh `uuidv4()` id and stores
hundreds of them, and the mock fallback set is hard-coded with distinct ids.) -/
theorem c2_rotation_batch (rand : (i : Nat) → Fin (i + 1)) (pool : List Question)
    (seen : List String) (hnd : (pool.map Question.id).Nodup) (hlen : 5 ≤ pool.length) :
    (QuestionService.getGameQuestions rand pool seen).length = 5 ∧
    ((QuestionService.getGameQuestions rand pool seen).map Question.id).Nodup ∧
    (∀ q ∈ QuestionService.getGameQuestions rand pool seen, q ∈ pool) ∧
    (5 ≤ (pool.filter (fun q => !(seen.contains q.id))).length →
      ∀ q ∈ QuestionService.getGameQuestions rand pool seen, ¬ q.id ∈ seen) := by
  classical
  set unseen := pool.filter (fun q => !(seen.contains q.id)) with hunseen
  have hsubl : unseen.Sublist pool := List.filter_sublist pool
  have hperm_pool : (QuestionService.shuffleArray rand pool).Perm pool :=
    fisherYates_perm rand pool
  have hperm_unseen : (QuestionService.shuffleArray rand unseen).Perm unseen :=
    fisherYates_perm rand unseen
  by_cases hcase : unseen.length < 5
  · have hres : QuestionService.getGameQuestions rand pool seen =
        (QuestionService.shuffleArray rand pool).take 5 := by
      simp only [QuestionService.getGameQuestions]
      rw [← hunseen, if_pos hcase]
    refine ⟨?_, ?_, ?_, ?_⟩
    · rw [hres, List.length_take, hperm_pool.length_eq]
      omega
    · rw [hres]
      have h1 : ((QuestionService.shuffleArray rand pool).map Question.id).Nodup :=
        ((hperm_pool.map Question.id).nodup_iff).mpr hnd
      exact ((List.take_sublist 5 _).map Question.id).nodup h1
    · intro q hq
      rw [hres] at hq
      exact hperm_pool.mem_iff.mp (List.mem_of_mem_take hq)
    · intro h5
      omega
  · have hres : QuestionService.getGameQuestions rand pool seen =
        (QuestionService.shuffleArray rand unseen).take 5 := by
      simp only [QuestionService.getGameQuestions]
      rw [← hunseen, if_neg hcase]
    have hmem_unseen : ∀ q ∈ QuestionService.getGameQuestions rand pool seen, q ∈ unseen := by
      intro q hq
      rw [hres] at hq
      exact hperm_unseen.mem_iff.mp (List.mem_of_mem_take hq)
    refine ⟨?_, ?_, ?_, ?_⟩
    · rw [hres, List.length_take, hperm_unseen.length_eq]
      omega
    · rw [hres]
      have hnd_unseen : (unseen.map Question.id).Nodup :=
        (hsubl.map Question.id).nodup hnd
      have h1 : ((QuestionService.shuffleArray rand unseen).map Question.id).Nodup :=
        ((hperm_unseen.map Question.id).nodup_iff).mpr hnd_unseen
      exact ((List.take_sublist 5 _).map Question.id).nodup h1
    · intro q hq
      exact hsubl.mem (hmem_unseen q hq)
    · intro _ q hq
      have hmem := hmem_unseen q hq
      rw [hunseen, List.mem_filter] at hmem
      have hc : seen.contains q.id = false := by simpa using hmem.2
      simpa using hc

/-- Witness for C2 at a concrete pool, seen set and shuffle choice. -/
theorem c2_rotation_batch_witness :
    ((poolW.map Question.id).Nodup ∧ 5 ≤ poolW.length) ∧
    ((QuestionService.getGameQuestions randW poolW ["q9"]).length = 5 ∧
     ((QuestionService.getGameQuestions randW poolW ["q9"]).map Question.id).Nodup ∧
     (∀ q ∈ QuestionService.getGameQuestions randW poolW ["q9"], q ∈ poolW) ∧
     (5 ≤ (poolW.filter (fun q => !((["q9"] : List String).contains q.id))).length →
       ∀ q ∈ QuestionService.getGameQuestions randW poolW ["q9"],
         ¬ q.id ∈ (["q9"] : List String))) :=
  ⟨⟨by decide, by decide⟩, c2_rotation_batch randW poolW ["q9"] (by decide) (by decide)⟩

/-- C10: For every question stored in a session created by start-game, the
question's options list is a permutation of `[correct_answer, ...incorrect_answers]`:
same length, same multiset of elements, and in particular the correct answer
appears among the presented options.  The shuffle operates on a copy, so the
source question record is unchanged (the embedding is pure in it). -/
theorem c10_options_permutation (rand : Nat → (i : Nat) → Fin (i + 1)) (n : Nat)
    (qs : List Question) :
    ∀ sq ∈ startGameQuestions rand n qs, ∃ q, q ∈ qs ∧
      sq.correct_answer = q.correct_answer ∧
      sq.options.Perm (q.correct_answer :: q.incorrect_answers) ∧
      sq.options.length = (q.correct_answer :: q.incorrect_answers).length ∧
      sq.correct_answer ∈ sq.options := by
  induction qs generalizing n with
  | nil => intro sq hsq; simp [startGameQuestions] at hsq
  | cons q qs ih =>
    intro sq hsq
    rw [startGameQuestions, List.mem_cons] at hsq
    rcases hsq with hsq | hsq
    · subst hsq
      refine ⟨q, List.mem_cons_self q qs, rfl, ?_, ?_, ?_⟩
      · exact fisherYates_perm _ _
      · exact (fisherYates_perm _ _).length_eq
      · exact ((fisherYates_perm _ _).mem_iff).mpr (List.mem_cons_self _ _)
    · obtain ⟨q', hq', hrest⟩ := ih (n + 1) sq hsq
      exact ⟨q', List.mem_cons_of_mem q hq', hrest⟩

/-- Witness for C10 at a concrete question list and shuffle choice. -/
theorem c10_options_permutation_witness :
    buildSessionQuestion (randW) questionW ∈ startGameQuestions (fun _ => randW) 0 [questionW] ∧
    (∃ q, q ∈ [questionW] ∧
      (buildSessionQuestion randW questionW).correct_answer = q.correct_answer ∧
      (buildSessionQuestion randW questionW).options.Perm
        (q.correct_answer :: q.incorrect_answers) ∧
      (buildSessionQuestion randW questionW).options.length =
        (q.correct_answer :: q.incorrect_answers).length ∧
      (buildSessionQuestion randW questionW).correct_answer ∈
        (buildSessionQuestion randW questionW).options) :=
  ⟨by decide,
   c10_options_permutation (fun _ => randW) 0 [questionW] _ (by decide)⟩

/-- C1 counterexample: the claim asserts a correct answer with `timeTaken = 0`
scores exactly 20, but `normalizeTimeTaken` maps 0 (which fails `timeTaken > 0`)
to 15, so the code scores it 10. -/
theorem c1_scoring_counterexample :
    IndexHandler.questionScore true (some 0) = 10 ∧ (10 : ℚ) ≠ 20 := by
  constructor
  · have h0 : IndexHandler.normalizeTimeTaken (some 0) = 15 := by
      simp [IndexHandler.normalizeTimeTaken]
    rw [IndexHandler.questionScore, if_pos rfl, h0, IndexHandler.speedBonus,
      if_neg (by norm_num)]
    norm_num
  · norm_num

/-- C1 (amended): For every accepted submit-answer call with a correct answer,
the per-question score equals `10 + max(0, floor(10 - timeTaken))` when
`timeTaken` is in `(0, 10]` seconds and exactly 10 for slower answers as well as
for `timeTaken ≤ 0` (any value outside `(0, 15]`, including 0, normalizes to 15);
in particular a correct answer with `timeTaken = 0` scores exactly 10 (not 20),
with `timeTaken = 10` scores exactly 10, and with `timeTaken = 15` scores
exactly 10; a wrong answer scores 0. -/
theorem c1_scoring (t : ℚ) :
    (0 < t ∧ t ≤ 10 →
      IndexHandler.questionScore true (some t) = 10 + ((max 0 ⌊(10 : ℚ) - t⌋ : ℤ) : ℚ)) ∧
    (10 < t ∧ t ≤ 15 → IndexHandler.questionScore true (some t) = 10) ∧
    (t ≤ 0 ∨ 15 < t → IndexHandler.questionScore true (some t) = 10) ∧
    IndexHandler.questionScore false (some t) = 0 := by
  refine ⟨?_, ?_, ?_, ?_⟩
  · rintro ⟨h1, h2⟩
    have hn : IndexHandler.normalizeTimeTaken (some t) = t := by
      rw [IndexHandler.normalizeTimeTaken, if_pos ⟨h1, le_trans h2 (by norm_num)⟩]
    rw [IndexHandler.questionScore, if_pos rfl, hn, IndexHandler.speedBonus, if_pos h2]
  · rintro ⟨h1, h2⟩
    have hn : IndexHandler.normalizeTimeTaken (some t) = t := by
      rw [IndexHandler.normalizeTimeTaken, if_pos ⟨lt_trans (by norm_num) h1, h2⟩]
    rw [IndexHandler.questionScore, if_pos rfl, hn, IndexHandler.speedBonus,
      if_neg (not_le.mpr h1)]
    norm_num
  · intro h
    have hn : IndexHandler.normalizeTimeTaken (some t) = 15 := by
      rw [IndexHandler.normalizeTimeTaken, if_neg]
      rintro ⟨h1, h2⟩
      rcases h with h | h
      · exact absurd h1 (not_lt.mpr h)
      · exact absurd h (not_lt.mpr h2)
    rw [IndexHandler.questionScore, if_pos rfl, hn, IndexHandler.speedBonus,
      if_neg (by norm_num)]
    norm_num
  · rw [IndexHandler.questionScore, if_neg (by simp)]

/-- Witness for C1 at `timeTaken = 2` (a correct answer scores 18). -/
theorem c1_scoring_witness :
    (0 < (2 : ℚ) ∧ (2 : ℚ) ≤ 10) ∧
    IndexHandler.questionScore true (some 2) = 10 + ((max 0 ⌊(10 : ℚ) - 2⌋ : ℤ) : ℚ) :=
  ⟨⟨by decide, by decide⟩, (c1_scoring 2).1 ⟨by decide, by decide⟩⟩

/-- C4: For every session, each accepted submit-answer increases the question
index (source field `currentQuestion`) by exactly 1, and the index never exceeds
`questions.length`: once the index has reached `questions.length`, any further
submit-answer is rejected without modifying the session.  Both handler variants
satisfy this (the first variant rejects via a thrown TypeError handled by the
top-level catch, again leaving the session unmodified). -/
theorem c4_index_bounds (uid : String) (qid : Option String) (ans : String)
    (t : Option ℚ) (t1 : ℚ) (s : Session) :
    ((IndexHandler.submitAnswer uid qid ans t s).1.isAnswered = true →
      (IndexHandler.submitAnswer uid qid ans t s).2.currentQuestion = s.currentQuestion + 1 ∧
      (IndexHandler.submitAnswer uid qid ans t s).2.questions = s.questions) ∧
    (s.questions.length ≤ s.currentQuestion →
      (IndexHandler.submitAnswer uid qid ans t s).1.isAnswered = false ∧
      (IndexHandler.submitAnswer uid qid ans t s).2 = s) ∧
    (s.currentQuestion ≤ s.questions.length →
      (IndexHandler.submitAnswer uid qid ans t s).2.currentQuestion ≤
        (IndexHandler.submitAnswer uid qid ans t s).2.questions.length) ∧
    ((IndexHandlerV1.submitAnswer uid ans t1 s).1.isAnswered = true →
      (IndexHandlerV1.submitAnswer uid ans t1 s).2.currentQuestion = s.currentQuestion + 1 ∧
      (IndexHandlerV1.submitAnswer uid ans t1 s).2.questions = s.questions) ∧
    (s.questions.length ≤ s.currentQuestion →
      (IndexHandlerV1.submitAnswer uid ans t1 s).1.isAnswered = false ∧
      (IndexHandlerV1.submitAnswer uid ans t1 s).2 = s) ∧
    (s.currentQuestion ≤ s.questions.length →
      (IndexHandlerV1.submitAnswer uid ans t1 s).2.currentQuestion ≤
        (IndexHandlerV1.submitAnswer uid ans t1 s).2.questions.length) := by
  unfold IndexHandler.submitAnswer IndexHandlerV1.submitAnswer
  by_cases huid : s.userId ≠ uid
  · simp only [if_pos huid]
    refine ⟨?_, ?_, ?_, ?_, ?_, ?_⟩ <;>
      simp [IndexHandler.SubmitOutcome.isAnswered, IndexHandlerV1.SubmitOutcomeV1.isAnswered]
  · simp only [if_neg huid]
    by_cases hidx : s.questions.length ≤ s.currentQuestion
    · have hget : s.questions.get? s.currentQuestion = none := List.get?_eq_none.mpr hidx
      simp only [if_pos hidx, hget]
      refine ⟨?_, ?_, ?_, ?_, ?_, ?_⟩ <;>
        simp [IndexHandler.SubmitOutcome.isAnswered, IndexHandlerV1.SubmitOutcomeV1.isAnswered,
          hidx]
    · have hlt : s.currentQuestion < s.questions.length := lt_of_not_le hidx
      obtain ⟨q, hget⟩ : ∃ q, s.questions.get? s.currentQuestion = some q :=
        ⟨s.questions.get ⟨s.currentQuestion, hlt⟩, List.get?_eq_get hlt⟩
      simp only [if_neg hidx, hget]
      by_cases hmis : (match qid with
          | some q' => q' != q.id
          | none => false) = true
      · simp only [if_pos hmis]
        refine ⟨?_, ?_, ?_, ?_, ?_, ?_⟩ <;>
          simp [IndexHandler.SubmitOutcome.isAnswered,
            IndexHandlerV1.SubmitOutcomeV1.isAnswered, hidx, Nat.succ_le_of_lt hlt]
      · simp only [if_neg hmis]
        refine ⟨?_, ?_, ?_, ?_, ?_, ?_⟩ <;>
          simp [IndexHandler.SubmitOutcome.isAnswered,
            IndexHandlerV1.SubmitOutcomeV1.isAnswered, hidx, Nat.succ_le_of_lt hlt]

/-- Witness for C4: on a concrete fresh session an accepted answer moves the
index from 0 to 1, and on a concrete exhausted session the call is rejected
with the session unchanged (in both handler variants). -/
theorem c4_index_bounds_witness :
    ((IndexHandler.submitAnswer "u" none "x" (some 2) sessionW).1.isAnswered = true ∧
     (IndexHandler.submitAnswer "u" none "x" (some 2) sessionW).2.currentQuestion =
       sessionW.currentQuestion + 1 ∧
     (IndexHandler.submitAnswer "u" none "x" (some 2) sessionW).2.questions =
       sessionW.questions) ∧
    (sessionDoneW.questions.length ≤ sessionDoneW.currentQuestion ∧
     (IndexHandler.submitAnswer "u" none "x" (some 2) sessionDoneW).1.isAnswered = false ∧
     (IndexHandler.submitAnswer "u" none "x" (some 2) sessionDoneW).2 = sessionDoneW ∧
     (IndexHandlerV1.submitAnswer "u" "x" 2 sessionDoneW).1.isAnswered = false ∧
     (IndexHandlerV1.submitAnswer "u" "x" 2 sessionDoneW).2 = sessionDoneW) :=
  ⟨⟨by decide,
    (c4_index_bounds "u" none "x" (some 2) 2 sessionW).1 (by decide)⟩,
   ⟨by decide,
    ((c4_index_bounds "u" none "x" (some 2) 2 sessionDoneW).2.1 (by decide)).1,
    ((c4_index_bounds "u" none "x" (some 2) 2 sessionDoneW).2.1 (by decide)).2,
    ((c4_index_bounds "u" none "x" (some 2) 2 sessionDoneW).2.2.2.2.1 (by decide)).1,
    ((c4_index_bounds "u" none "x" (some 2) 2 sessionDoneW).2.2.2.2.1 (by decide)).2⟩⟩

/-- C5 evaluation at the claim's own example (`limit = 3`, `window = 1000 ms`,
three calls at t = 100, 200, 300, a fourth at t = 400, and a final call at
t = 2000, a full window after the accepted ones): the `src/rate-limiter.js`
implementation accepts 3 calls, rejects the 4th and accepts again after the
window, exactly as the claim states; the `src/unnamed/part_013` implementation
rejects the post-window call as well, because its `validStart` scan leaves the
stale timestamps in place when every entry is older than the window (and the
inline cleanup only fires after 60000 ms).  This refutes the claim for the
part_013 variant while exhibiting the intended behaviour on the other. -/
theorem c5_rate_limit_divergence :
    RateLimiter.runCalls 3 1000 [100, 200, 300, 400, 2000] =
      [true, true, true, false, true] ∧
    RateLimiterPart013.runCalls 3 1000 [100, 200, 300, 400, 2000] =
      [true, true, true, false, false] := by
  constructor
  · decide
  · decide

/-- C6 counterexample: `setSession` neither validates the claimed pattern nor
propagates failures.  The id `"bad!id"` fails the claimed pattern, yet the
write is issued (with the `!` silently stripped) and no error reaches the
caller; and when the store operation itself fails, the error is still
swallowed. -/
theorem c6_set_session_counterexample :
    claimedSessionIdPattern "bad!id" = false ∧
    (ValkeyClient.setSession "bad!id" "x" .ok).propagatedError = none ∧
    (ValkeyClient.setSession "bad!id" "x" .ok).written =
      some ("valkey:session:badid", "x") ∧
    (ValkeyClient.setSession "abc" "x" .failure).propagatedError = none := by
  refine ⟨by decide, by decide, by decide, by decide⟩

/-- C6 (amended): `setSession(id, data, ttl)` does not validate the id against
`^[A-Za-z0-9_-]{1,100}$` and performs no payload-size check; it sanitizes the id
(strips every character outside `[A-Za-z0-9-]`, truncates to 50) and issues the
write, and every failure (validation cannot occur, connectivity, timeout) is
caught and logged — no error ever propagates to the caller. -/
theorem c6_set_session (sessionId data : String) (st : ValkeyClient.StoreHealth) :
    (ValkeyClient.setSession sessionId data st).propagatedError = none ∧
    (ValkeyClient.setSession sessionId data st).attemptedKey =
      "valkey:session:" ++ ValkeyClient.sanitizeSessionId sessionId ∧
    (ValkeyClient.sanitizeSessionId sessionId).length ≤ 50 ∧
    ∀ c ∈ (ValkeyClient.sanitizeSessionId sessionId).toList,
      ValkeyClient.isSessionIdChar c = true := by
  refine ⟨?_, ?_, ?_, ?_⟩
  · cases st <;> rfl
  · cases st <;> rfl
  · show ((sessionId.toList.filter ValkeyClient.isSessionIdChar).take 50).length ≤ 50
    exact List.length_take_le _ _
  · intro c hc
    have hc' : c ∈ (sessionId.toList.filter ValkeyClient.isSessionIdChar).take 50 := hc
    exact (List.mem_filter.mp (List.mem_of_mem_take hc')).2

/-- Witness for C6 at a concrete id containing both kept and stripped
characters. -/
theorem c6_set_session_witness :
    ('A' ∈ (ValkeyClient.sanitizeSessionId "Abc!").toList) ∧
    ValkeyClient.isSessionIdChar 'A' = true ∧
    (ValkeyClient.setSession "Abc!" "d" .ok).propagatedError = none :=
  ⟨by decide, (c6_set_session "Abc!" "d" .ok).2.2.2 'A' (by decide),
   (c6_set_session "Abc!" "d" .ok).1⟩

/-- C7 counterexample: at input score 5000 the part_014 variant stores 5000
(its clamp bound is 10000, not 1000) and the valkey-client.js variant stores
the raw score, while the claimed `[0, 1000]` clamp would store 1000. -/
theorem c7_leaderboard_clamp_counterexample :
    (ValkeyClientPart014.addToLeaderboard (some 5000) "u" "n").1 = 5000 ∧
    (ValkeyClient.addToLeaderboard 5000 "u" "n").1 = 5000 ∧
    claimedScoreClamp 5000 = 1000 ∧ (5000 : ℚ) ≠ 1000 := by
  refine ⟨by decide, rfl, by decide, by decide⟩

/-- C7 (amended): the part_014 `addToLeaderboard` clamps the stored score to
`[0, 10000]` (not `[0, 1000]`) for every input, storing in-range scores
unchanged, while the `addToLeaderboard` of src/valkey-client.js stores the
score entirely unclamped. -/
theorem c7_leaderboard_clamp (scoreOpt : Option ℚ) (score : ℚ) (userId username : String) :
    0 ≤ (ValkeyClientPart014.addToLeaderboard scoreOpt userId username).1 ∧
    (ValkeyClientPart014.addToLeaderboard scoreOpt userId username).1 ≤ 10000 ∧
    (0 ≤ score ∧ score ≤ 10000 →
      (ValkeyClientPart014.addToLeaderboard (some score) userId username).1 = score) ∧
    (ValkeyClient.addToLeaderboard score userId username).1 = score := by
  refine ⟨le_max_left 0 _, max_le (by norm_num) (min_le_left _ _), ?_, rfl⟩
  rintro ⟨h1, h2⟩
  show ValkeyClientPart014.sanitizedScore (some score) = score
  by_cases h0 : score = 0
  · subst h0
    simp [ValkeyClientPart014.sanitizedScore, ValkeyClientPart014.jsNumberOr0]
  · rw [ValkeyClientPart014.sanitizedScore, ValkeyClientPart014.jsNumberOr0, if_neg h0,
      min_eq_right h2, max_eq_right h1]

/-- Witness for C7 at score 500 (stored unchanged by the part_014 clamp). -/
theorem c7_leaderboard_clamp_witness :
    ((0 : ℚ) ≤ 500 ∧ (500 : ℚ) ≤ 10000) ∧
    (ValkeyClientPart014.addToLeaderboard (some 500) "u" "n").1 = 500 :=
  ⟨⟨by decide, by decide⟩, (c7_leaderboard_clamp (some 500) 500 "u" "n").2.2.1
    ⟨by decide, by decide⟩⟩

/-- C8: the claim holds for the part_014 read path but the
src/valkey-client.js read path violates it — for the member
`"u1:alice:99"` (username `"alice:99"` containing a colon) it returns the
username `"alice"`, silently dropping `":99"`, where the claim requires
everything after the first colon. -/
theorem c8_leaderboard_split_divergence :
    ValkeyClient.getLeaderboardMember "u1:alice:99" = (some "u1", some "alice") ∧
    ValkeyClientPart014.getLeaderboardMember "u1:alice:99" = ("u1", "alice:99") ∧
    ("alice" : String) ≠ "alice:99" := by
  refine ⟨by decide, by decide, by decide⟩

/-- C9 counterexample: `addSeenQuestions` does not filter to at most 100 IDs
(101 well-formed input ids are all passed to the store), does not cap an id at
100 characters (a 101-character id survives whole), and does not skip the
store operation when no valid id remains (`["!!!"]` sanitizes to `[""]` and the
batch-add is still issued with an empty-string member). -/
theorem c9_add_seen_counterexample :
    (ValkeyClient.addSeenQuestions "u" (List.replicate 101 "ok")).members.length = 101 ∧
    ¬ ((ValkeyClient.addSeenQuestions "u" (List.replicate 101 "ok")).members.length ≤ 100) ∧
    (ValkeyClient.addSeenQuestions "u" ["!!!"]).members = [""] ∧
    (ValkeyClient.addSeenQuestions "u" ["!!!"]).raisedToCaller = none ∧
    (ValkeyClient.sanitizeQuestionId (String.mk (List.replicate 101 'a'))).length = 101 := by
  refine ⟨by decide, by decide, by decide, by decide, by decide⟩

/-- C9 (amended): `addSeenQuestions(userId, ids)` sanitizes every input id by
stripping characters outside `[A-Za-z0-9_-]` (no count cap, no per-id length
cap, and ids that sanitize to the empty string are still included), passes all
of them to a single atomic pipelined batch-add with a 604800-second TTL
refresh, and never raises an error to the caller (all failures are caught and
logged), so it never blocks the game-start flow. -/
theorem c9_add_seen (userId : String) (questionIds : List String) :
    (ValkeyClient.addSeenQuestions userId questionIds).members.length =
      questionIds.length ∧
    (∀ m ∈ (ValkeyClient.addSeenQuestions userId questionIds).members,
      m.toList.all ValkeyClient.isQuestionIdChar = true) ∧
    (ValkeyClient.addSeenQuestions userId questionIds).raisedToCaller = none ∧
    (ValkeyClient.addSeenQuestions userId questionIds).ttlSeconds = 604800 := by
  refine ⟨List.length_map _ _, ?_, rfl, rfl⟩
  intro m hm
  obtain ⟨id, _, rfl⟩ := List.mem_map.mp hm
  show (id.toList.filter ValkeyClient.isQuestionIdChar).all ValkeyClient.isQuestionIdChar = true
  rw [List.all_eq_true]
  intro c hc
  exact (List.mem_filter.mp hc).2

/-- Witness for C9 at a concrete id list containing a malformed id. -/
theorem c9_add_seen_witness :
    (ValkeyClient.addSeenQuestions "u" ["ab", "c!"]).members.length = 2 ∧
    ValkeyClient.sanitizeQuestionId "c!" ∈
      (ValkeyClient.addSeenQuestions "u" ["ab", "c!"]).members ∧
    (ValkeyClient.sanitizeQuestionId "c!").toList.all ValkeyClient.isQuestionIdChar = true :=
  ⟨(c9_add_seen "u" ["ab", "c!"]).1, by decide,
   (c9_add_seen "u" ["ab", "c!"]).2.1 _ (by decide)⟩

/-- Sanity checks of the date model: the epoch day, known weekdays, and the
year extraction used by the ISO algorithm. -/
theorem date_model_sanity :
    dayNumber 1970 1 1 = 0 ∧
    getUTCDay (dayNumber 1970 1 1) = 4 ∧
    getUTCDay (dayNumber 2025 1 1) = 3 ∧
    getUTCDay (dayNumber 2025 1 5) = 0 ∧
    yearFromDays (dayNumber 2025 1 2) = 2025 ∧
    yearFromDays (dayNumber 2024 12 31) = 2024 ∧
    yearFromDays (dayNumber 2024 2 29) = 2024 := by
  refine ⟨by decide, by decide, by decide, by decide, by decide, by decide, by decide⟩

/-- C3 divergence: the two week-number computations agree on 2025-01-01 (the
spec's example date, both give week 1) but disagree on 2025-01-05 (a Sunday,
still ISO week 1): the preloader's ISO-8601 algorithm gives 1 while
src/valkey-client.js's leaderboard algorithm gives 2, so leaderboard keys and
preloader keys are not computed by the same ISO-8601 algorithm.  (Both
embeddings are deterministic functions of the date, so repeated calls on a
fixed date trivially agree with themselves.) -/
theorem c3_week_key_divergence :
    QuestionPreloader.getWeekNumber 2025 1 1 = 1 ∧
    ValkeyClient.getWeekNumber 2025 1 1 = 1 ∧
    QuestionPreloader.getWeekNumber 2025 1 5 = 1 ∧
    ValkeyClient.getWeekNumber 2025 1 5 = 2 ∧
    (1 : Nat) ≠ 2 := by
  refine ⟨by decide, by decide, by decide, by decide, by decide⟩
